import Mathlib

/-!
# Verification of the cleaning-tracker core (recurrence, occurrence lifecycle,
# reminders)

Shallow embedding of the Python sources under `src/api/app`:
  * `core/database.py`   — occurrence CRUD, completion, generation, overdue sweep
  * `services/recurrence.py` — RRULE validation and expansion
  * `services/notification_service.py` — reminder scheduling
  * `routers/task_occurrences.py` — the state-machine endpoints

Conventions of the embedding:
  * instants are minutes since the Unix epoch (`Nat`); dates are day numbers
    (minutes / 1440); `datetime.max.time()` is the last minute of a day (1439);
  * UUIDs are `Nat`s; the database is explicit state (`DB`) threaded through
    each operation; Python exceptions are `Except AppError`;
  * the `dateutil` rrule library is external to the repository; it is modelled
    here (`rrulestrParse`, `rruleInstants`) for the rule shapes the repository
    actually uses (FREQ in DAILY/WEEKLY/MONTHLY/YEARLY/HOURLY with INTERVAL,
    BYDAY, BYMONTHDAY, BYMONTH, COUNT, UNTIL);
  * fallible I/O: `asyncpg` inserts may raise.  An oracle
    (`Env.failingInserts`) lists the task ids whose occurrence INSERTs raise a
    database error, modelling driver/constraint failures other than
    `UniqueViolationError` (which `create_task_occurrence` catches).
-/

namespace CleaningTracker

/-! ## Calendar arithmetic (civil dates ↔ day numbers)

Standard civil-from-days / days-from-civil algorithms, in `Nat` arithmetic,
anchored at 0000-03-01; `epochShift` rebases to 1970-01-01 (Unix day 0).
`weekday` is dateutil's numbering: Monday = 0 … Sunday = 6. -/

def isLeap (y : Nat) : Bool :=
  y % 4 == 0 && (y % 100 != 0 || y % 400 == 0)

def daysInMonth (y m : Nat) : Nat :=
  if m == 2 then (if isLeap y then 29 else 28)
  else if m == 4 || m == 6 || m == 9 || m == 11 then 30
  else 31

/-- Days since 0000-03-01 of the civil date (y, m, d), for y ≥ 1. -/
def civilToDays0 (y m d : Nat) : Nat :=
  let y' := if m ≤ 2 then y - 1 else y
  let era := y' / 400
  let yoe := y' % 400
  let mp  := if m > 2 then m - 3 else m + 9
  let doy := (153 * mp + 2) / 5 + d - 1
  let doe := yoe * 365 + yoe / 4 - yoe / 100 + doy
  era * 146097 + doe

def epochShift : Nat := 719468  -- civilToDays0 1970 1 1

/-- Unix day number of a civil date (valid for dates on/after 1970-01-01). -/
def dayOfCivil (y m d : Nat) : Nat :=
  civilToDays0 y m d - epochShift

/-- Civil date (y, m, d) of a Unix day number. -/
def civilOfDay (n : Nat) : Nat × Nat × Nat :=
  let z := n + epochShift
  let era := z / 146097
  let doe := z % 146097
  let yoe := (doe - doe / 1460 + doe / 36524 - doe / 146096) / 365
  let y := yoe + era * 400
  let doy := doe - (365 * yoe + yoe / 4 - yoe / 100)
  let mp := (5 * doy + 2) / 153
  let d := doy - (153 * mp + 2) / 5 + 1
  let m := if mp < 10 then mp + 3 else mp - 9
  (if m ≤ 2 then y + 1 else y, m, d)

/-- dateutil weekday of a Unix day number: Monday = 0 … Sunday = 6
(1970-01-01 was a Thursday, i.e. 3). -/
def weekday (n : Nat) : Nat := (n + 3) % 7

/-! ## Model of the external `dateutil.rrule` library -/

inductive Freq
  | daily | weekly | monthly | yearly | hourly
  deriving DecidableEq, Repr

structure RRuleAst where
  freq : Freq
  interval : Nat := 1
  byday : Option (List Nat) := none        -- weekday numbers, MO = 0 … SU = 6
  bymonthday : Option Int := none
  bymonth : Option (List Nat) := none
  count : Option Nat := none
  untilDay : Option Nat := none            -- UNTIL, parsed as date at 00:00
  deriving DecidableEq, Repr

/-- Character-list plumbing: the parser works on `String.data` so that every
step is structural recursion (fully evaluable). -/
def isWS (c : Char) : Bool :=
  c == ' ' || c == '\t' || c == '\n' || c == '\r'

def trimChars (l : List Char) : List Char :=
  ((l.dropWhile isWS).reverse.dropWhile isWS).reverse

/-- Split a character list on a separator (model of `str.split(sep)`). -/
def splitOnChar (sep : Char) : List Char → List (List Char)
  | [] => [[]]
  | c :: rest =>
    let r := splitOnChar sep rest
    if c == sep then [] :: r
    else
      match r with
      | [] => [[c]]
      | h :: t => (c :: h) :: t

def digitVal (c : Char) : Option Nat :=
  if 48 ≤ c.toNat && c.toNat ≤ 57 then some (c.toNat - 48) else none

def parseNatChars (l : List Char) : Option Nat :=
  if l.isEmpty then none
  else l.foldlM (fun acc c => (digitVal c).map (fun d => acc * 10 + d)) 0

def parseFreq (s : List Char) : Option Freq :=
  if s == "DAILY".data then some .daily
  else if s == "WEEKLY".data then some .weekly
  else if s == "MONTHLY".data then some .monthly
  else if s == "YEARLY".data then some .yearly
  else if s == "HOURLY".data then some .hourly
  else none

def parseWeekdayCode (s : List Char) : Option Nat :=
  if s == "MO".data then some 0 else if s == "TU".data then some 1
  else if s == "WE".data then some 2 else if s == "TH".data then some 3
  else if s == "FR".data then some 4 else if s == "SA".data then some 5
  else if s == "SU".data then some 6 else none

def parseWeekdayList (s : List Char) : Option (List Nat) :=
  (splitOnChar ',' s).mapM parseWeekdayCode

def parseNatList (s : List Char) : Option (List Nat) :=
  (splitOnChar ',' s).mapM parseNatChars

/-- Parse `UNTIL=YYYYMMDD` into a Unix day number. -/
def parseUntil (s : List Char) : Option Nat :=
  if s.length == 8 then do
    let y ← parseNatChars (s.take 4)
    let m ← parseNatChars ((s.drop 4).take 2)
    let d ← parseNatChars (s.drop 6)
    if 1 ≤ m && m ≤ 12 && 1 ≤ d && d ≤ 31 && 1970 ≤ y then
      some (dayOfCivil y m d)
    else none
  else none

def parseMonthday (s : List Char) : Option Int :=
  if s == "-1".data then some (-1)
  else match parseNatChars s with
    | some n => if 1 ≤ n && n ≤ 31 then some (Int.ofNat n) else none
    | none => none

/-- One `KEY=VALUE` part folded into a partial rule. -/
def applyRulePart (r : RRuleAst × Bool) (part : List Char) :
    Option (RRuleAst × Bool) :=
  match splitOnChar '=' part with
  | [k, v] =>
    if k == "FREQ".data then
      (parseFreq v).map (fun f => ({ r.1 with freq := f }, true))
    else if k == "INTERVAL".data then
      match parseNatChars v with
      | some n => if n ≥ 1 then some ({ r.1 with interval := n }, r.2) else none
      | none => none
    else if k == "BYDAY".data then
      (parseWeekdayList v).map (fun l => ({ r.1 with byday := some l }, r.2))
    else if k == "BYMONTHDAY".data then
      (parseMonthday v).map (fun n => ({ r.1 with bymonthday := some n }, r.2))
    else if k == "BYMONTH".data then
      (parseNatList v).map (fun l => ({ r.1 with bymonth := some l }, r.2))
    else if k == "COUNT".data then
      match parseNatChars v with
      | some n => if n ≥ 1 then some ({ r.1 with count := n }, r.2) else none
      | none => none
    else if k == "UNTIL".data then
      (parseUntil v).map (fun d => ({ r.1 with untilDay := some d }, r.2))
    else none
  | _ => none

/-- Model of `dateutil.rrule.rrulestr`: parses the semicolon-separated
`KEY=VALUE` grammar; an empty or malformed string yields `none` (the library
raises, and every caller in the repository catches that and branches). -/
def rrulestrParse (s : String) : Option RRuleAst :=
  if trimChars s.data == [] then none
  else
    match (splitOnChar ';' s.data).foldlM applyRulePart ({ freq := .daily }, false) with
    | some (r, true) => some r
    | _ => none

/-- Raw instants of a step-based rule (DAILY / HOURLY / plain WEEKLY):
`dtstartMin + k * step` for every k with the instant ≤ `limitB`. -/
def stepInstants (dtstartMin step limitB : Nat) : List Nat :=
  if limitB < dtstartMin then []
  else (List.range ((limitB - dtstartMin) / step + 1)).map
    (fun k => dtstartMin + k * step)

/-- Candidate instant of the k-th month step of a MONTHLY rule (none if the
month lacks the requested day). -/
def monthlyCandidate (y0 m0 : Nat) (md : Int) (tod : Nat) (interval k : Nat) :
    Option Nat :=
  let mi := (y0 * 12 + (m0 - 1)) + k * interval
  let y := mi / 12
  let m := mi % 12 + 1
  let d : Nat := if md == -1 then daysInMonth y m else md.toNat
  if 1 ≤ d && d ≤ daysInMonth y m then some (dayOfCivil y m d * 1440 + tod)
  else none

/-- Candidate instants of the k-th year step of a YEARLY rule. -/
def yearlyCandidates (y0 : Nat) (months : List Nat) (d0 tod : Nat)
    (interval k : Nat) : List Nat :=
  let y := y0 + k * interval
  months.filterMap (fun m =>
    if 1 ≤ m && m ≤ 12 && d0 ≤ daysInMonth y m then
      some (dayOfCivil y m d0 * 1440 + tod)
    else none)

/-- Model of the occurrence stream of a parsed rule, truncated at `limitB`
(minutes).  `dtstartDay`/`dtstartTod` split dtstart into its date and
time-of-day; COUNT caps the stream from dtstart, UNTIL caps the instants. -/
def rruleInstants (r : RRuleAst) (dtstartDay dtstartTod limitB : Nat) :
    List Nat :=
  let dtstartMin := dtstartDay * 1440 + dtstartTod
  let bydayOk : Nat → Bool := fun t =>
    match r.byday with
    | none => true
    | some bs => bs.contains (weekday (t / 1440))
  let raw : List Nat :=
    match r.freq with
    | .daily => (stepInstants dtstartMin (1440 * r.interval) limitB).filter bydayOk
    | .hourly => (stepInstants dtstartMin (60 * r.interval) limitB).filter bydayOk
    | .weekly =>
      match r.byday with
      | none => stepInstants dtstartMin (7 * 1440 * r.interval) limitB
      | some bs =>
        -- week-based expansion, weeks starting Monday (dateutil default wkst)
        if limitB < dtstartMin then []
        else
          let bDay := limitB / 1440
          let w0 := dtstartDay - weekday dtstartDay
          ((List.range (bDay - dtstartDay + 1)).map (fun k => dtstartDay + k)
            |>.filter (fun d =>
              bs.contains (weekday d) &&
              ((d - weekday d) - w0) / 7 % r.interval == 0)
            |>.map (fun d => d * 1440 + dtstartTod)
            |>.filter (fun t => dtstartMin ≤ t && t ≤ limitB))
    | .monthly =>
      let (y0, m0, d0) := civilOfDay dtstartDay
      let md := r.bymonthday.getD (Int.ofNat d0)
      let bDay := limitB / 1440
      if limitB < dtstartMin then []
      else
        let fuel := (bDay - dtstartDay) / (28 * r.interval) + 2
        ((List.range fuel).filterMap
            (fun k => monthlyCandidate y0 m0 md dtstartTod r.interval k)
          |>.filter (fun t =>
            dtstartMin ≤ t && t ≤ limitB &&
            (match r.bymonth with
             | none => true
             | some ms => ms.contains (civilOfDay (t / 1440)).2.1)))
    | .yearly =>
      let (y0, m0, d0) := civilOfDay dtstartDay
      let months := r.bymonth.getD [m0]
      let bDay := limitB / 1440
      if limitB < dtstartMin then []
      else
        let fuel := (bDay - dtstartDay) / (365 * r.interval) + 2
        (((List.range fuel).map
            (fun k => yearlyCandidates y0 months d0 dtstartTod r.interval k)).flatten
          |>.filter (fun t => dtstartMin ≤ t && t ≤ limitB))
  let raw := match r.untilDay with
    | none => raw
    | some u => raw.filter (fun t => t ≤ u * 1440)
  match r.count with
  | none => raw
  | some c => raw.take c

/-- Model of `rule.between(a, b, inc=True)` for a rule built with
`dtstart = a` (the only shape the repository uses): instants in `[a, b]`. -/
def rruleBetween (r : RRuleAst) (startDay endMin : Nat) : List Nat :=
  rruleInstants r startDay 0 endMin

/-! ## Data model (`schemas/task.py`, table shapes from `core/database.py`) -/

/-- Status enum `TaskStatus` from `schemas/task.py` (string values `pending`, `snoozed`,
`done`, `skipped`, `overdue`). -/
inductive TaskStatus
  | pending | snoozed | done | skipped | overdue
  deriving DecidableEq, Repr

structure TaskDef where
  id : Nat
  householdId : Option Nat
  recurrenceRule : Option String
  title : String := ""
  isCatalog : Bool := false
  deriving DecidableEq, Repr

structure Occurrence where
  id : Nat
  taskId : Nat
  scheduledDate : Nat           -- day number
  dueAt : Nat                   -- minutes
  status : TaskStatus
  assignedTo : Option Nat
  snoozedUntil : Option Nat     -- minutes
  createdAt : Nat
  deriving DecidableEq, Repr

structure Completion where
  occurrenceId : Nat
  completedBy : Nat
  completedAt : Nat
  durationMinutes : Option Nat
  comment : Option String
  photoUrl : Option String
  createdAt : Nat
  deriving DecidableEq, Repr

/-- A row of the `notifications` table as inserted by
`schedule_task_reminders` (`occurrence_id, member_id, channel, created_at`;
`sent_at`/`delivered` take their defaults). -/
structure NotificationRow where
  id : Nat
  occurrenceId : Nat
  memberId : Nat
  channel : String
  createdAt : Nat
  sentAt : Option Nat := none
  delivered : Bool := false
  deriving DecidableEq, Repr

structure DB where
  taskDefs : List TaskDef
  occurrences : List Occurrence
  completions : List Completion
  notifications : List NotificationRow
  nextId : Nat := 1000
  deriving DecidableEq, Repr

/-- The pydantic validator `TaskOccurrenceBase.validate_snoozed_until`
(`schemas/task.py` lines 118–127), as the predicate it enforces on every
occurrence returned through the API: `snoozed_until` is set iff the status is
`snoozed`. -/
def validateSnoozedUntil (o : Occurrence) : Bool :=
  (o.snoozedUntil.isNone || o.status == .snoozed) &&
  (o.status != .snoozed || o.snoozedUntil.isSome)

/-- Errors raised across the embedded code (`core/exceptions.py`), with the
HTTP status each class carries. -/
inductive AppError
  | invalidInput (field reason : String)          -- 400
  | businessRuleViolation (rule details : String) -- 409 CONFLICT
  | occurrenceNotFound                            -- 404
  | unauthorizedAccess                            -- 403
  | databaseError (operation : String)            -- 500
  deriving DecidableEq, Repr

/-- The `http_status` of each exception class in `core/exceptions.py`
(`BusinessRuleViolation` is constructed with `HTTPStatus.CONFLICT`). -/
def AppError.httpStatus : AppError → Nat
  | .invalidInput _ _ => 400
  | .businessRuleViolation _ _ => 409
  | .occurrenceNotFound => 404
  | .unauthorizedAccess => 403
  | .databaseError _ => 500

/-- Ambient world: the clock, household membership (the authorization
collaborator behind `check_household_access`), and the fallible-insert oracle
for `asyncpg` errors other than `UniqueViolationError`. -/
structure Env where
  now : Nat
  member : Nat → Nat → Bool      -- household id → user id → is member
  failingInserts : List Nat := []

/-- Model of `date.today()` under the embedding's clock. -/
def Env.today (e : Env) : Nat := e.now / 1440

/-- Model of `check_household_access(pool, household_id, user_id)`; a definition whose
`household_id` is NULL (catalog template) never matches a membership row. -/
def checkHouseholdAccess (env : Env) (householdId : Option Nat) (userId : Nat) :
    Bool :=
  match householdId with
  | some h => env.member h userId
  | none => false

/-! ## `core/database.py` — occurrence CRUD and transitions -/

/-- Function `get_task_occurrence`: the occurrence row inner-joined with its task
definition (so it also yields `household_id`); `none` when either is missing. -/
def getTaskOccurrence (db : DB) (occurrenceId : Nat) :
    Option (Occurrence × Option Nat) :=
  match db.occurrences.find? (fun o => o.id == occurrenceId) with
  | none => none
  | some o =>
    match db.taskDefs.find? (fun td => td.id == o.taskId) with
    | none => none
    | some td => some (o, td.householdId)

/-- Function `get_task_definitions(pool, household_id=h)`: only the `household_id`
filter is passed by the generation fan-out (catalog templates have a NULL
`household_id` and therefore never match). -/
def getTaskDefinitions (db : DB) (householdId : Option Nat) : List TaskDef :=
  match householdId with
  | none => db.taskDefs
  | some h => db.taskDefs.filter (fun td => td.householdId == some h)

/-- Function `create_task_occurrence`: INSERT with status `pending`; on the
`(task_id, scheduled_date)` uniqueness violation the existing row is fetched
and returned instead (`asyncpg.UniqueViolationError` handler).  A driver error
other than the uniqueness violation (oracle `env.failingInserts`, or a
foreign-key violation when the definition is absent) propagates. -/
def createTaskOccurrence (env : Env) (db : DB) (taskId scheduledDate dueAt : Nat)
    (assignedTo : Option Nat) : Except AppError (DB × Option Occurrence) :=
  match db.occurrences.find?
      (fun o => o.taskId == taskId && o.scheduledDate == scheduledDate) with
  | some existing => .ok (db, some existing)
  | none =>
    if env.failingInserts.contains taskId then
      .error (.databaseError "insert task_occurrence")
    else if (db.taskDefs.find? (fun td => td.id == taskId)).isNone then
      .error (.databaseError "foreign key violation")
    else
      let occ : Occurrence :=
        { id := db.nextId, taskId := taskId, scheduledDate := scheduledDate,
          dueAt := dueAt, status := .pending, assignedTo := assignedTo,
          snoozedUntil := none, createdAt := env.now }
      let db' := { db with occurrences := db.occurrences ++ [occ],
                           nextId := db.nextId + 1 }
      .ok (db', (getTaskOccurrence db' occ.id).map Prod.fst)

/-- The per-row effect of `update_task_occurrence_status`'s dynamic UPDATE:
always sets `status`; sets `assigned_to` when the kwarg is supplied; sets
`snoozed_until` when supplied *and* the new status is SNOOZED, and clears it
whenever the new status is not SNOOZED. -/
def applyStatusUpdate (status : TaskStatus) (kwAssigned : Option Nat)
    (kwSnoozed : Option Nat) (o : Occurrence) : Occurrence :=
  let o := { o with status := status }
  let o := match kwAssigned with
    | some a => { o with assignedTo := some a }
    | none => o
  if kwSnoozed.isSome && status == .snoozed then
    { o with snoozedUntil := kwSnoozed }
  else if status != .snoozed then
    { o with snoozedUntil := none }
  else o

/-- Function `update_task_occurrence_status(pool, occurrence_id, status, **kwargs)`. -/
def updateTaskOccurrenceStatus (db : DB) (occurrenceId : Nat)
    (status : TaskStatus) (kwAssigned : Option Nat) (kwSnoozed : Option Nat) :
    DB × Option (Occurrence × Option Nat) :=
  let db' := { db with occurrences := db.occurrences.map (fun o =>
    if o.id == occurrenceId then
      applyStatusUpdate status kwAssigned kwSnoozed o
    else o) }
  (db', getTaskOccurrence db' occurrenceId)

/-- Function `complete_task_occurrence`: inside one transaction, set the status to
`done` (the UPDATE touches only `status`) and insert one `task_completions`
row.  The all-or-nothing transaction is the function returning either the
whole new state or none of it. -/
def completeTaskOccurrence (env : Env) (db : DB) (occurrenceId completedBy : Nat)
    (durationMinutes : Option Nat) (comment : Option String)
    (photoUrl : Option String) : DB × Completion :=
  let occs := db.occurrences.map (fun o =>
    if o.id == occurrenceId then { o with status := .done } else o)
  let c : Completion :=
    { occurrenceId := occurrenceId, completedBy := completedBy,
      completedAt := env.now, durationMinutes := durationMinutes,
      comment := comment, photoUrl := photoUrl, createdAt := env.now }
  ({ db with occurrences := occs, completions := db.completions ++ [c] }, c)

/-- The WHERE predicate of `check_and_update_overdue_occurrences`: the row
joins a task definition (matching the household filter when given), its status
is `pending` and `due_at < NOW()`. -/
def sweepCond (env : Env) (db : DB) (householdId : Option Nat)
    (o : Occurrence) : Bool :=
  (db.taskDefs.any (fun td => td.id == o.taskId &&
    (match householdId with
     | some h => td.householdId == some h
     | none => true))) &&
  o.status == .pending && o.dueAt < env.now

/-- Function `check_and_update_overdue_occurrences` (the overdue sweep): one UPDATE
moving every matching row to `overdue`, returning the updated-row count. -/
def checkAndUpdateOverdueOccurrences (env : Env) (db : DB)
    (householdId : Option Nat) : DB × Nat :=
  let db' := { db with occurrences := db.occurrences.map (fun o =>
    if sweepCond env db householdId o then { o with status := .overdue } else o) }
  (db', db.occurrences.countP (fun o => sweepCond env db householdId o))

/-! ## `core/database.py` — occurrence generation -/

/-- The per-date loop of `generate_occurrences_for_definition`: breaks once
`max_occurrences` rows were created, computes `due_at` as the end of the day,
and appends each occurrence `create_task_occurrence` returns.  A driver error
from the insert propagates (there is no try/except around this loop). -/
def genDefLoop (env : Env) (taskDefId maxOccurrences : Nat) :
    List Nat → DB → List Occurrence → Except AppError (DB × List Occurrence)
  | [], db, acc => .ok (db, acc.reverse)
  | dt :: rest, db, acc =>
    if acc.length ≥ maxOccurrences then .ok (db, acc.reverse)
    else
      let scheduledDate := dt / 1440
      let dueAt := scheduledDate * 1440 + 1439   -- datetime.max.time()
      match createTaskOccurrence env db taskDefId scheduledDate dueAt none with
      | .error e => .error e
      | .ok (db', some occ) => genDefLoop env taskDefId maxOccurrences rest db' (occ :: acc)
      | .ok (db', none) => genDefLoop env taskDefId maxOccurrences rest db' acc

/-- Function `generate_occurrences_for_definition`: a missing definition or a rule that
fails to parse (including a NULL rule) yields an empty list without error;
otherwise the rule is expanded over `[start, end]` (dtstart = start at 00:00,
upper bound end at `datetime.max.time()`) and one occurrence is created per
date. -/
def generateOccurrencesForDefinition (env : Env) (db : DB) (taskDefId : Nat)
    (startDay endDay : Nat) (maxOccurrences : Nat := 100) :
    Except AppError (DB × List Occurrence) :=
  match db.taskDefs.find? (fun td => td.id == taskDefId) with
  | none => .ok (db, [])
  | some td =>
    match td.recurrenceRule.bind rrulestrParse with
    | none => .ok (db, [])
    | some r =>
      let instants := rruleBetween r startDay (endDay * 1440 + 1439)
      genDefLoop env taskDefId maxOccurrences instants db []

/-- Function `generate_occurrences_for_household`: fans
`generate_occurrences_for_definition` out over the household's definitions and
concatenates the results.  The loop has no try/except: an error from one
definition propagates and aborts the remaining ones. -/
def generateOccurrencesForHousehold (env : Env) (db : DB) (householdId : Nat)
    (daysAhead : Nat := 30) : Except AppError (DB × List Occurrence) :=
  let startDay := env.today
  let endDay := env.today + daysAhead
  let defs := getTaskDefinitions db (some householdId)
  defs.foldlM (fun (st : DB × List Occurrence) td => do
      let (db', occs) ← generateOccurrencesForDefinition env st.1 td.id startDay endDay
      pure (db', st.2 ++ occs))
    (db, [])

/-! ## `services/recurrence.py` — RecurrenceService -/

/-- Constant `RecurrenceService.MAX_OCCURRENCES_PER_YEAR` ("366 pour les années
bissextiles"). -/
def MAX_OCCURRENCES_PER_YEAR : Nat := 366

/-- Constant `RecurrenceService.MAX_GENERATION_DAYS`. -/
def MAX_GENERATION_DAYS : Nat := 365

/-- Dataclass `RecurrenceInfo` from `services/recurrence.py`. -/
structure RecurrenceInfo where
  frequency : String
  interval : Nat
  daysOfWeek : Option (List String) := none
  dayOfMonth : Option Int := none
  monthOfYear : Option Nat := none
  count : Option Nat := none
  untilDay : Option Nat := none
  isValid : Bool := true
  errorMessage : Option String := none
  deriving DecidableEq, Repr

def freqName : Freq → String
  | .daily => "DAILY"
  | .weekly => "WEEKLY"
  | .monthly => "MONTHLY"
  | .yearly => "YEARLY"
  | .hourly => "UNKNOWN"   -- freq_map covers only DAILY/WEEKLY/MONTHLY/YEARLY

def weekdayCode (n : Nat) : String :=
  (["MO", "TU", "WE", "TH", "FR", "SA", "SU"].getD n "MO")

/-- The field extraction of `validate_rrule` on a successfully parsed rule. -/
def extractInfo (r : RRuleAst) : RecurrenceInfo :=
  { frequency := freqName r.freq
    interval := r.interval
    daysOfWeek := r.byday.map (·.map weekdayCode)
    dayOfMonth := r.bymonthday
    monthOfYear := r.bymonth.bind (·.head?)
    count := r.count
    untilDay := r.untilDay }

/-- The occurrence count `_validate_limits` simulates: the rule re-anchored at
`dtstart = today 00:00` expanded over `[today, today + 365]` (upper bound at
`datetime.max.time()`). -/
def simulatedYearCount (env : Env) (r : RRuleAst) : Nat :=
  (rruleInstants r env.today 0 ((env.today + 365) * 1440 + 1439)).length

/-- Method `validate_rrule`: an empty rule and a parse failure both return an invalid
`RecurrenceInfo` with a message (no exception); on success `_validate_limits`
raises `BusinessRuleViolation` when the simulated yearly count exceeds
`MAX_OCCURRENCES_PER_YEAR`, and that exception is re-raised. -/
def validateRrule (env : Env) (rruleString : String) :
    Except AppError RecurrenceInfo :=
  if trimChars rruleString.data == [] then
    .ok { frequency := "INVALID", interval := 0, isValid := false,
          errorMessage := some "La règle de récurrence ne peut pas être vide" }
  else
    match rrulestrParse rruleString with
    | none =>
      .ok { frequency := "INVALID", interval := 0, isValid := false,
            errorMessage := some "Règle de récurrence invalide" }
    | some r =>
      let info := extractInfo r
      if simulatedYearCount env r > MAX_OCCURRENCES_PER_YEAR then
        .error (.businessRuleViolation "MAX_OCCURRENCES"
          "La règle génère trop d'occurrences")
      else
        .ok info

/-- The collection loop of `generate_occurrences_between`: the `max` check
runs before the exclusion filters, so filtered-out dates do not count. -/
def genBetweenLoop (maxOccurrences : Nat) (excludeWeekends excludeHolidays : Bool)
    (isHoliday : Nat → Bool) : List Nat → List (Nat × Nat) → List (Nat × Nat)
  | [], acc => acc.reverse
  | dt :: rest, acc =>
    if acc.length ≥ maxOccurrences then acc.reverse
    else
      let d := dt / 1440
      if excludeWeekends && (weekday d == 5 || weekday d == 6) then
        genBetweenLoop maxOccurrences excludeWeekends excludeHolidays isHoliday rest acc
      else if excludeHolidays && isHoliday d then
        genBetweenLoop maxOccurrences excludeWeekends excludeHolidays isHoliday rest acc
      else
        genBetweenLoop maxOccurrences excludeWeekends excludeHolidays isHoliday rest
          ((d, dt % 1440) :: acc)

/-- Method `generate_occurrences_between`: validates the window (`InvalidInput` when
end precedes start, `BusinessRuleViolation` beyond `MAX_GENERATION_DAYS`),
expands with `dtstart = start` at 00:00 over `[start 00:00, end 23:59]`, and
collects `(date, time)` pairs up to `max_occurrences` (default
`MAX_OCCURRENCES_PER_YEAR`); a parse failure surfaces as `InvalidInput`.
`isHoliday` stands for the service's year-scoped holiday calendar. -/
def generateOccurrencesBetween (isHoliday : Nat → Bool) (rruleString : String)
    (startDay endDay : Nat) (excludeHolidays : Bool := false)
    (excludeWeekends : Bool := false) (maxOccurrences : Option Nat := none) :
    Except AppError (List (Nat × Nat)) :=
  let maxOcc := maxOccurrences.getD MAX_OCCURRENCES_PER_YEAR
  if endDay < startDay then
    .error (.invalidInput "date_range"
      "La date de fin doit être après la date de début")
  else if endDay - startDay > MAX_GENERATION_DAYS then
    .error (.businessRuleViolation "MAX_GENERATION_PERIOD"
      "La période de génération ne peut pas dépasser 365 jours")
  else
    match rrulestrParse rruleString with
    | none => .error (.invalidInput "rrule" "Impossible de générer les occurrences")
    | some r =>
      .ok (genBetweenLoop maxOcc excludeWeekends excludeHolidays isHoliday
        (rruleBetween r startDay (endDay * 1440 + 1439)) [])

/-! ## `services/notification_service.py` — reminder scheduling -/

/-- The notification-preference flags consumed by the scheduler
(`_get_user_preferences` currently returns the hard-coded defaults). -/
structure Prefs where
  reminderDayBefore : Bool := true
  reminderSameDay : Bool := true
  reminder2hBefore : Bool := true
  preferredChannel : String := "push"
  deriving DecidableEq, Repr

def defaultPrefs : Prefs := {}

/-- Method `_calculate_reminder_times`: `day_before` is due − 24 h (unconditional),
`same_day` is 09:00 of the due date when that precedes the due instant,
`2h_before` is due − 2 h when still in the future. -/
def calculateReminderTimes (dueAt : Nat) (p : Prefs) (now : Nat) :
    List (Nat × String) :=
  (if p.reminderDayBefore then [(dueAt - 1440, "day_before")] else []) ++
  (if p.reminderSameDay then
     let t := (dueAt / 1440) * 1440 + 540
     if t < dueAt then [(t, "same_day")] else []
   else []) ++
  (if p.reminder2hBefore then
     let t := dueAt - 120
     if now < t then [(t, "2h_before")] else []
   else [])

/-- A row of the list `schedule_task_reminders` returns. -/
structure ScheduledReminder where
  notificationId : Nat
  scheduledFor : Nat
  kind : String
  channel : String
  deriving DecidableEq, Repr

/-- The insertion loop of `schedule_task_reminders`: every computed instant
still in the future gets one unconditional INSERT into `notifications` —
there is no lookup for an existing (occurrence, recipient, scheduled-for)
row. -/
def scheduleLoop (env : Env) (occurrenceId memberId : Nat) (channel : String) :
    List (Nat × String) → DB → List ScheduledReminder →
    DB × List ScheduledReminder
  | [], db, acc => (db, acc.reverse)
  | (t, kind) :: rest, db, acc =>
    if env.now < t then
      let row : NotificationRow :=
        { id := db.nextId, occurrenceId := occurrenceId, memberId := memberId,
          channel := channel, createdAt := env.now }
      let db' := { db with notifications := db.notifications ++ [row],
                           nextId := db.nextId + 1 }
      scheduleLoop env occurrenceId memberId channel rest db'
        ({ notificationId := row.id, scheduledFor := t, kind := kind,
           channel := channel } :: acc)
    else
      scheduleLoop env occurrenceId memberId channel rest db acc

/-- Method `schedule_task_reminders(occurrence_id, user_preferences)`: raises
`InvalidInput` when the occurrence row is missing, returns `[]` when the
occurrence has no assignee, and otherwise inserts one notification row per
future reminder instant (the assignee is the recipient; with
referential integrity the joined `user_id` equals `assigned_to`). -/
def scheduleTaskReminders (env : Env) (db : DB) (occurrenceId : Nat)
    (userPreferences : Option Prefs) :
    Except AppError (DB × List ScheduledReminder) :=
  match getTaskOccurrence db occurrenceId with
  | none => .error (.invalidInput "occurrence_id" "Occurrence non trouvée")
  | some (o, _) =>
    match o.assignedTo with
    | none => .ok (db, [])
    | some uid =>
      let prefs := userPreferences.getD defaultPrefs
      let times := calculateReminderTimes o.dueAt prefs env.now
      .ok (scheduleLoop env occurrenceId uid prefs.preferredChannel times db [])

/-! ## `routers/task_occurrences.py` — state-machine endpoints -/

/-- Payload of `PUT /occurrences/{id}/complete`. -/
structure CompletePayload where
  durationMinutes : Option Nat := none
  comment : Option String := none
  photoUrl : Option String := none
  deriving DecidableEq, Repr

/-- Endpoint `complete_occurrence`: 404 when the occurrence is missing, 403
without household access, `BusinessRuleViolation` (HTTP 409) when the status
is already `done`, otherwise the transactional completion. -/
def completeOccurrence (env : Env) (db : DB) (occurrenceId userId : Nat)
    (payload : CompletePayload) : Except AppError (DB × Completion) :=
  match getTaskOccurrence db occurrenceId with
  | none => .error .occurrenceNotFound
  | some (o, householdId) =>
    if !checkHouseholdAccess env householdId userId then
      .error .unauthorizedAccess
    else if o.status == .done then
      .error (.businessRuleViolation "ALREADY_COMPLETED"
        "Cette occurrence est déjà marquée comme complétée")
    else
      .ok (completeTaskOccurrence env db occurrenceId userId
        payload.durationMinutes payload.comment payload.photoUrl)

/-- Endpoint `snooze_occurrence` (the payload validator has already enforced
`snoozed_until` in the future): rejected from `done`/`skipped`, otherwise
`update_task_occurrence_status(..., SNOOZED, snoozed_until=...)`. -/
def snoozeOccurrence (env : Env) (db : DB) (occurrenceId userId : Nat)
    (snoozedUntil : Nat) : Except AppError (DB × Option (Occurrence × Option Nat)) :=
  match getTaskOccurrence db occurrenceId with
  | none => .error .occurrenceNotFound
  | some (o, householdId) =>
    if !checkHouseholdAccess env householdId userId then
      .error .unauthorizedAccess
    else if o.status == .done || o.status == .skipped then
      .error (.businessRuleViolation "CANNOT_SNOOZE"
        "Une occurrence terminée ne peut pas être reportée")
    else
      .ok (updateTaskOccurrenceStatus db occurrenceId .snoozed none (some snoozedUntil))

/-- Endpoint `skip_occurrence`: rejected from `done`/`skipped`, otherwise sets
the status to `OVERDUE` (an ignored task is modelled as "still owed"). -/
def skipOccurrence (env : Env) (db : DB) (occurrenceId userId : Nat) :
    Except AppError (DB × Option (Occurrence × Option Nat)) :=
  match getTaskOccurrence db occurrenceId with
  | none => .error .occurrenceNotFound
  | some (o, householdId) =>
    if !checkHouseholdAccess env householdId userId then
      .error .unauthorizedAccess
    else if o.status == .done || o.status == .skipped then
      .error (.businessRuleViolation "ALREADY_PROCESSED"
        "Cette occurrence est déjà traitée")
    else
      .ok (updateTaskOccurrenceStatus db occurrenceId .overdue none none)

/-- Endpoint `assign_occurrence`: the assignee must be a member of the
household; rejected from `done`/`skipped`; re-issues the current status with
`assigned_to` supplied. -/
def assignOccurrence (env : Env) (db : DB) (occurrenceId userId assignedTo : Nat) :
    Except AppError (DB × Option (Occurrence × Option Nat)) :=
  match getTaskOccurrence db occurrenceId with
  | none => .error .occurrenceNotFound
  | some (o, householdId) =>
    if !checkHouseholdAccess env householdId userId then
      .error .unauthorizedAccess
    else if !checkHouseholdAccess env householdId assignedTo then
      .error (.invalidInput "assigned_to"
        "L'utilisateur assigné n'est pas membre du ménage")
    else if o.status == .done || o.status == .skipped then
      .error (.businessRuleViolation "CANNOT_ASSIGN_COMPLETED"
        "Une occurrence terminée ne peut pas être réassignée")
    else
      .ok (updateTaskOccurrenceStatus db occurrenceId o.status (some assignedTo) none)

/-- Endpoint `reopen_occurrence`: legal only from `done`; resets to `pending`
(the completion rows are left untouched). -/
def reopenOccurrence (env : Env) (db : DB) (occurrenceId userId : Nat) :
    Except AppError (DB × Option (Occurrence × Option Nat)) :=
  match getTaskOccurrence db occurrenceId with
  | none => .error .occurrenceNotFound
  | some (o, householdId) =>
    if !checkHouseholdAccess env householdId userId then
      .error .unauthorizedAccess
    else if o.status != .done then
      .error (.businessRuleViolation "NOT_COMPLETED"
        "Seules les occurrences terminées peuvent être remises à faire")
    else
      .ok (updateTaskOccurrenceStatus db occurrenceId .pending none none)

/-- Completion rows recorded for one occurrence. -/
def completionsFor (db : DB) (occurrenceId : Nat) : List Completion :=
  db.completions.filter (fun c => c.occurrenceId == occurrenceId)

/-! ## Concrete fixtures (used by counterexamples and witnesses) -/

/-- A world on 2024-01-02 10:00 UTC; household 1 has members 7 and 8. -/
def envW : Env :=
  { now := 19724 * 1440 + 600, member := fun h u => h == 1 && (u == 7 || u == 8) }

def tdW : TaskDef :=
  { id := 10, householdId := some 1, recurrenceRule := some "FREQ=DAILY" }

def occPending : Occurrence :=
  { id := 100, taskId := 10, scheduledDate := 19723, dueAt := 19723 * 1440 + 1439,
    status := .pending, assignedTo := none, snoozedUntil := none,
    createdAt := 19723 * 1440 }

def dbW : DB :=
  { taskDefs := [tdW], occurrences := [occPending], completions := [],
    notifications := [] }

/-- An occurrence snoozed until 2024-01-03 00:00, due 2024-01-05. -/
def occSnoozed : Occurrence :=
  { id := 101, taskId := 10, scheduledDate := 19727, dueAt := 19727 * 1440 + 1439,
    status := .snoozed, assignedTo := none, snoozedUntil := some (19725 * 1440),
    createdAt := 19723 * 1440 }

def dbSnoozed : DB :=
  { taskDefs := [tdW], occurrences := [occSnoozed], completions := [],
    notifications := [] }

/-- Sweep fixture: a past-due pending row, a future pending row, a past-due
snoozed row and a past-due done row. -/
def occFuturePending : Occurrence :=
  { id := 102, taskId := 10, scheduledDate := 19730, dueAt := 19730 * 1440 + 1439,
    status := .pending, assignedTo := none, snoozedUntil := none,
    createdAt := 19723 * 1440 }

def occSnoozedPast : Occurrence :=
  { id := 103, taskId := 10, scheduledDate := 19720, dueAt := 19720 * 1440 + 1439,
    status := .snoozed, assignedTo := none, snoozedUntil := some (19726 * 1440),
    createdAt := 19719 * 1440 }

def occDonePast : Occurrence :=
  { id := 104, taskId := 10, scheduledDate := 19721, dueAt := 19721 * 1440 + 1439,
    status := .done, assignedTo := none, snoozedUntil := none,
    createdAt := 19719 * 1440 }

def dbSweep : DB :=
  { taskDefs := [tdW],
    occurrences := [occPending, occFuturePending, occSnoozedPast, occDonePast],
    completions := [], notifications := [] }

/-- Reminder fixture: an occurrence assigned to user 7, due 2024-01-03 18:00,
well after `envW.now`. -/
def occAssigned : Occurrence :=
  { id := 105, taskId := 10, scheduledDate := 19725, dueAt := 19725 * 1440 + 1080,
    status := .pending, assignedTo := some 7, snoozedUntil := none,
    createdAt := 19723 * 1440 }

def dbAssigned : DB :=
  { taskDefs := [tdW], occurrences := [occAssigned], completions := [],
    notifications := [] }

/-- Fan-out fixture: two daily definitions in household 1; the insert oracle
fails for definition 10 only. -/
def tdFailing : TaskDef :=
  { id := 10, householdId := some 1, recurrenceRule := some "FREQ=DAILY",
    title := "A" }

def tdHealthy : TaskDef :=
  { id := 11, householdId := some 1, recurrenceRule := some "FREQ=DAILY",
    title := "B" }

def envFail : Env :=
  { now := 19723 * 1440 + 600, member := fun _ _ => true, failingInserts := [10] }

def dbTwoDefs : DB :=
  { taskDefs := [tdFailing, tdHealthy], occurrences := [], completions := [],
    notifications := [] }

/-- Validation fixture: the clock at 2024-01-01 00:00. -/
def envC5 : Env := { now := 19723 * 1440, member := fun _ _ => false }

def dailyAst : RRuleAst := { freq := .daily }

def hourlyAst : RRuleAst := { freq := .hourly }

/-- A definition whose recurrence rule is the empty string. -/
def tdEmptyRule : TaskDef :=
  { id := 12, householdId := some 1, recurrenceRule := some "" }

def dbEmptyRule : DB :=
  { taskDefs := [tdEmptyRule], occurrences := [], completions := [],
    notifications := [] }

/-! # Theorems -/

/-- Helper: `find?` by id commutes with mapping an id-preserving row update. -/
theorem find?_map_of_id_eq (l : List Occurrence) (f : Occurrence → Occurrence)
    (hf : ∀ o, (f o).id = o.id) (i : Nat) :
    (l.map f).find? (fun o => o.id == i) = (l.find? (fun o => o.id == i)).map f := by
  induction l with
  | nil => rfl
  | cons a t ih =>
    simp only [List.map_cons, List.find?]
    rw [show ((f a).id == i) = (a.id == i) by rw [hf a]]
    cases h : (a.id == i) with
    | true => simp
    | false => simpa using ih

/-- Helper: the hourly simulation over the 366-day window counts 8784
instants, independently of the clock. -/
theorem simulatedYearCount_hourly (env : Env) :
    simulatedYearCount env hourlyAst = 8784 := by
  unfold simulatedYearCount rruleInstants stepInstants hourlyAst
  have h1 : ¬ ((env.today + 365) * 1440 + 1439 < env.today * 1440 + 0) := by omega
  have h2 : (((env.today + 365) * 1440 + 1439) - (env.today * 1440 + 0)) / (60 * 1) + 1
      = 8784 := by omega
  simp only [h1, if_false, List.filter_true, List.length_map, List.length_range, h2]

/-- C9 (confirmed): expanding `FREQ=WEEKLY;BYDAY=MO,WE,FR` over the inclusive
window [2024-01-01, 2024-01-15] with both exclusion filters off and no
caller-supplied cap yields exactly the seven dates Jan 1, 3, 5, 8, 10, 12 and
15 of 2024 (each at 00:00), in strictly ascending order. -/
theorem weekly_byday_expansion_jan2024 :
    generateOccurrencesBetween (fun _ => false) "FREQ=WEEKLY;BYDAY=MO,WE,FR"
      (dayOfCivil 2024 1 1) (dayOfCivil 2024 1 15) =
      .ok [(dayOfCivil 2024 1 1, 0), (dayOfCivil 2024 1 3, 0),
           (dayOfCivil 2024 1 5, 0), (dayOfCivil 2024 1 8, 0),
           (dayOfCivil 2024 1 10, 0), (dayOfCivil 2024 1 12, 0),
           (dayOfCivil 2024 1 15, 0)] ∧
    (dayOfCivil 2024 1 1 < dayOfCivil 2024 1 3 ∧
     dayOfCivil 2024 1 3 < dayOfCivil 2024 1 5 ∧
     dayOfCivil 2024 1 5 < dayOfCivil 2024 1 8 ∧
     dayOfCivil 2024 1 8 < dayOfCivil 2024 1 10 ∧
     dayOfCivil 2024 1 10 < dayOfCivil 2024 1 12 ∧
     dayOfCivil 2024 1 12 < dayOfCivil 2024 1 15) := by
  exact ⟨by rfl, by decide⟩

set_option maxRecDepth 40000 in
/-- C5, counterexample: `FREQ=DAILY` simulates to 366 occurrences over the
validation window — strictly more than 365 — yet `validate_rrule` accepts it,
because the ceiling in the code is `MAX_OCCURRENCES_PER_YEAR = 366`, not 365
as the claim states. -/
theorem validate_ceiling_counterexample :
    rrulestrParse "FREQ=DAILY" = some dailyAst ∧
    simulatedYearCount envC5 dailyAst = 366 ∧
    365 < simulatedYearCount envC5 dailyAst ∧
    validateRrule envC5 "FREQ=DAILY" = .ok { frequency := "DAILY", interval := 1 } := by
  refine ⟨by rfl, by decide, by decide, by rfl⟩

/-- C5 (amended): validation fails with the `MAX_OCCURRENCES` business-rule
error exactly when the simulated yearly count exceeds the code's ceiling of
366 (`MAX_OCCURRENCES_PER_YEAR`), not 365. -/
theorem validate_rejects_above_ceiling (env : Env) (s : String) (r : RRuleAst)
    (hp : rrulestrParse s = some r)
    (hc : simulatedYearCount env r > MAX_OCCURRENCES_PER_YEAR) :
    validateRrule env s =
      .error (.businessRuleViolation "MAX_OCCURRENCES"
        "La règle génère trop d'occurrences") := by
  have hne : (trimChars s.data == []) = false := by
    cases h : (trimChars s.data == []) with
    | true => rw [rrulestrParse, if_pos h] at hp; cases hp
    | false => rfl
  rw [validateRrule, hne]
  simp only [Bool.false_eq_true, if_false, hp]
  rw [if_pos hc]

/-- Witness for C5's amended theorem: `FREQ=HOURLY` simulates to 8784 > 366
occurrences and is rejected. -/
theorem validate_rejects_above_ceiling_witness :
    validateRrule envC5 "FREQ=HOURLY" =
      .error (.businessRuleViolation "MAX_OCCURRENCES"
        "La règle génère trop d'occurrences") :=
  validate_rejects_above_ceiling envC5 "FREQ=HOURLY" hourlyAst rfl
    (by rw [simulatedYearCount_hourly]; decide)

/-- C8 (confirmed): `validate_rrule` on the empty rule returns an invalid
result carrying a non-null message and raises nothing, and
`generate_occurrences_for_definition` for a definition whose rule is missing
or unparseable returns an empty list with the database untouched. -/
theorem empty_rule_validation_and_generation :
    (∀ env : Env, validateRrule env "" =
      .ok { frequency := "INVALID", interval := 0, isValid := false,
            errorMessage := some "La règle de récurrence ne peut pas être vide" }) ∧
    (∀ (env : Env) (db : DB) (taskDefId startDay endDay maxOcc : Nat)
       (td : TaskDef),
      db.taskDefs.find? (fun t => t.id == taskDefId) = some td →
      td.recurrenceRule.bind rrulestrParse = none →
      generateOccurrencesForDefinition env db taskDefId startDay endDay maxOcc
        = .ok (db, [])) := by
  constructor
  · intro env; rfl
  · intro env db taskDefId startDay endDay maxOcc td hfind hparse
    unfold generateOccurrencesForDefinition
    simp only [hfind, hparse]

/-- Witness for C8: a concrete definition whose stored rule is the empty
string generates nothing and errors nowhere. -/
theorem empty_rule_validation_and_generation_witness :
    validateRrule envC5 "" =
      .ok { frequency := "INVALID", interval := 0, isValid := false,
            errorMessage := some "La règle de récurrence ne peut pas être vide" } ∧
    generateOccurrencesForDefinition envC5 dbEmptyRule 12 19723 19725 100
      = .ok (dbEmptyRule, []) :=
  ⟨empty_rule_validation_and_generation.1 envC5,
   empty_rule_validation_and_generation.2 envC5 dbEmptyRule 12 19723 19725 100
     tdEmptyRule (by rfl) (by rfl)⟩

/-- C3 (confirmed): when an occurrence already exists for the
(definition, scheduled date) pair, `create_task_occurrence` surfaces no error:
it returns the pre-existing row and leaves the database unchanged. -/
theorem create_conflict_returns_existing (env : Env) (db : DB)
    (taskId scheduledDate dueAt : Nat) (assignedTo : Option Nat)
    (hex : ∃ o ∈ db.occurrences, o.taskId = taskId ∧ o.scheduledDate = scheduledDate) :
    ∃ ex, createTaskOccurrence env db taskId scheduledDate dueAt assignedTo
        = .ok (db, some ex) ∧
      ex ∈ db.occurrences ∧ ex.taskId = taskId ∧ ex.scheduledDate = scheduledDate := by
  have hs : (db.occurrences.find?
      (fun o => o.taskId == taskId && o.scheduledDate == scheduledDate)).isSome := by
    rw [List.find?_isSome]
    obtain ⟨o, ho, h1, h2⟩ := hex
    exact ⟨o, ho, by simp [h1, h2]⟩
  obtain ⟨ex, hfind⟩ := Option.isSome_iff_exists.mp hs
  have hp := List.find?_some hfind
  simp only [Bool.and_eq_true, beq_iff_eq] at hp
  refine ⟨ex, ?_, List.mem_of_find?_eq_some hfind, hp.1, hp.2⟩
  unfold createTaskOccurrence
  rw [hfind]

/-- Witness for C3: creating again for (definition 10, day 19723) in a
database that already holds `occPending` for that pair returns that row. -/
theorem create_conflict_returns_existing_witness :
    ∃ ex, createTaskOccurrence envW dbW 10 19723 500 none = .ok (dbW, some ex) ∧
      ex ∈ dbW.occurrences ∧ ex.taskId = 10 ∧ ex.scheduledDate = 19723 :=
  create_conflict_returns_existing envW dbW 10 19723 500 none
    ⟨occPending, by decide, rfl, rfl⟩

/-- Helper: the dynamic UPDATE of `update_task_occurrence_status` never
touches `id`, `task_id`, `scheduled_date`, `due_at` or `created_at`, and
touches `assigned_to` only when that kwarg is supplied. -/
theorem applyStatusUpdate_frame (status : TaskStatus)
    (kwAssigned kwSnoozed : Option Nat) (o : Occurrence) :
    (applyStatusUpdate status kwAssigned kwSnoozed o).id = o.id ∧
    (applyStatusUpdate status kwAssigned kwSnoozed o).taskId = o.taskId ∧
    (applyStatusUpdate status kwAssigned kwSnoozed o).scheduledDate = o.scheduledDate ∧
    (applyStatusUpdate status kwAssigned kwSnoozed o).dueAt = o.dueAt ∧
    (applyStatusUpdate status kwAssigned kwSnoozed o).createdAt = o.createdAt ∧
    (kwAssigned = none →
      (applyStatusUpdate status kwAssigned kwSnoozed o).assignedTo = o.assignedTo) := by
  unfold applyStatusUpdate
  rcases kwAssigned with _ | a <;>
    rcases hks : kwSnoozed.isSome && (status == TaskStatus.snoozed) with _ | _ <;>
    rcases hst : (status != TaskStatus.snoozed) with _ | _ <;>
      simp [hks, hst]

/-- C10 (confirmed): a state-machine status update modifies only `status`,
`snoozed_until` and — only when supplied — `assigned_to`; `task_id`,
`scheduled_date`, `due_at` and `created_at` are unchanged on the target row,
rows with a different id are untouched, and the other tables are untouched. -/
theorem status_update_frame (db : DB) (occurrenceId : Nat) (status : TaskStatus)
    (kwAssigned kwSnoozed : Option Nat) :
    List.Forall₂ (fun o o' =>
        o'.id = o.id ∧ o'.taskId = o.taskId ∧ o'.scheduledDate = o.scheduledDate ∧
        o'.dueAt = o.dueAt ∧ o'.createdAt = o.createdAt ∧
        (kwAssigned = none → o'.assignedTo = o.assignedTo) ∧
        (o.id ≠ occurrenceId → o' = o))
      db.occurrences
      (updateTaskOccurrenceStatus db occurrenceId status kwAssigned kwSnoozed).1.occurrences ∧
    (updateTaskOccurrenceStatus db occurrenceId status kwAssigned kwSnoozed).1.taskDefs
      = db.taskDefs ∧
    (updateTaskOccurrenceStatus db occurrenceId status kwAssigned kwSnoozed).1.completions
      = db.completions ∧
    (updateTaskOccurrenceStatus db occurrenceId status kwAssigned kwSnoozed).1.notifications
      = db.notifications := by
  refine ⟨?_, rfl, rfl, rfl⟩
  show List.Forall₂ _ db.occurrences (db.occurrences.map _)
  rw [List.forall₂_map_right_iff, List.forall₂_same]
  intro o _
  by_cases h : o.id = occurrenceId
  · have hb : (o.id == occurrenceId) = true := by simp [h]
    simp only [hb, if_true]
    obtain ⟨h1, h2, h3, h4, h5, h6⟩ :=
      applyStatusUpdate_frame status kwAssigned kwSnoozed o
    exact ⟨h1, h2, h3, h4, h5, h6, fun hne => absurd h hne⟩
  · have hb : (o.id == occurrenceId) = false := by simp [h]
    simp only [hb, if_false]
    exact ⟨rfl, rfl, rfl, rfl, rfl, fun _ => rfl, fun _ => rfl⟩

/-- Witness for C10: a concrete status update leaves the definition table in
place (one consequence of the frame theorem at a concrete input). -/
theorem status_update_frame_witness :
    (updateTaskOccurrenceStatus dbW 100 TaskStatus.overdue none none).1.taskDefs
      = dbW.taskDefs :=
  (status_update_frame dbW 100 .overdue none none).2.1

/-- C2, code bug: the `complete` transition does not clear `snoozed_until`.
Completing the snoozed occurrence 101 leaves a row with `status = done` and
`snoozed_until` still set, which violates the invariant claimed by the spec
and enforced by the code's own pydantic validator
(`TaskOccurrenceBase.validate_snoozed_until`, embedded as
`validateSnoozedUntil`): the row no longer validates. -/
theorem complete_does_not_clear_snoozed_until :
    occSnoozed.status = TaskStatus.snoozed ∧
    validateSnoozedUntil occSnoozed = true ∧
    ((completeOccurrence envW dbSnoozed 101 7 {}).map (fun p =>
        (p.1.occurrences.find? (fun o => o.id == 101)).map
          (fun o => (o.status, o.snoozedUntil, validateSnoozedUntil o))))
      = .ok (some (TaskStatus.done, some (19725 * 1440), false)) :=
  ⟨rfl, rfl, by rfl⟩

/-- Helper: the sweep predicate depends on the database only through the
definition table. -/
theorem sweepCond_ext (env : Env) (db1 db2 : DB) (householdId : Option Nat)
    (o : Occurrence) (h : db1.taskDefs = db2.taskDefs) :
    sweepCond env db1 householdId o = sweepCond env db2 householdId o := by
  unfold sweepCond; rw [h]

/-- C4 (confirmed): the overdue sweep sets `overdue` on exactly the rows
matched by its predicate and leaves every other row (and table) unchanged;
with referential integrity and no household filter that predicate is exactly
"status pending and due strictly before now"; the returned count is the
number of such rows; and re-running the sweep on the result updates zero
rows. -/
theorem overdue_sweep_spec (env : Env) (db : DB) (householdId : Option Nat)
    (hFK : ∀ o ∈ db.occurrences, ∃ td ∈ db.taskDefs, td.id = o.taskId) :
    List.Forall₂ (fun o o' =>
        (sweepCond env db householdId o = true → o' = { o with status := .overdue }) ∧
        (sweepCond env db householdId o = false → o' = o))
      db.occurrences
      (checkAndUpdateOverdueOccurrences env db householdId).1.occurrences ∧
    (householdId = none → ∀ o ∈ db.occurrences,
      sweepCond env db none o
        = (o.status == TaskStatus.pending && decide (o.dueAt < env.now))) ∧
    (householdId = none →
      (checkAndUpdateOverdueOccurrences env db none).2 =
        (db.occurrences.filter
          (fun o => o.status == TaskStatus.pending && decide (o.dueAt < env.now))).length) ∧
    checkAndUpdateOverdueOccurrences env
        (checkAndUpdateOverdueOccurrences env db householdId).1 householdId
      = ((checkAndUpdateOverdueOccurrences env db householdId).1, 0) ∧
    (checkAndUpdateOverdueOccurrences env db householdId).1.taskDefs = db.taskDefs ∧
    (checkAndUpdateOverdueOccurrences env db householdId).1.completions = db.completions := by
  have hcond : ∀ o ∈ db.occurrences, sweepCond env db none o
      = (o.status == TaskStatus.pending && decide (o.dueAt < env.now)) := by
    intro o ho
    obtain ⟨td, htd, hid⟩ := hFK o ho
    unfold sweepCond
    have hany : db.taskDefs.any (fun td => td.id == o.taskId && true) = true := by
      rw [List.any_eq_true]
      exact ⟨td, htd, by simp [hid]⟩
    rw [hany]
    simp
  refine ⟨?_, fun _ => hcond, fun _ => ?_, ?_, rfl, rfl⟩
  · show List.Forall₂ _ db.occurrences (db.occurrences.map _)
    rw [List.forall₂_map_right_iff, List.forall₂_same]
    intro o _
    constructor
    · intro h; rw [if_pos h]
    · intro h; rw [h]; simp
  · show db.occurrences.countP _ = _
    rw [List.countP_eq_length_filter]
    congr 1
    exact List.filter_congr hcond
  · set db' := (checkAndUpdateOverdueOccurrences env db householdId).1 with hdb'
    have hdefs : db'.taskDefs = db.taskDefs := rfl
    have hall : ∀ o' ∈ db'.occurrences, sweepCond env db' householdId o' = false := by
      intro o' ho'
      have : ∃ o ∈ db.occurrences,
          (if sweepCond env db householdId o then { o with status := .overdue } else o) = o' := by
        simpa [hdb', checkAndUpdateOverdueOccurrences] using ho'
      obtain ⟨o, ho, heq⟩ := this
      rw [sweepCond_ext env db' db householdId o' hdefs]
      by_cases h : sweepCond env db householdId o = true
      · rw [if_pos h] at heq
        subst heq
        unfold sweepCond
        simp
      · rw [if_neg h] at heq
        subst heq
        simpa using h
    have hmap : db'.occurrences.map
        (fun o => if sweepCond env db' householdId o then { o with status := .overdue } else o)
        = db'.occurrences := by
      have h1 : db'.occurrences.map
          (fun o => if sweepCond env db' householdId o then { o with status := .overdue } else o)
          = db'.occurrences.map id :=
        List.map_congr_left (fun o' ho' => by rw [hall o' ho']; simp)
      rw [h1, List.map_id]
    have hcount : db'.occurrences.countP (fun o => sweepCond env db' householdId o) = 0 := by
      rw [List.countP_eq_zero]
      intro o' ho'
      simp [hall o' ho']
    show ({ db' with occurrences := _ }, _) = (db', 0)
    rw [hmap, hcount]

/-- Witness for C4: in the sweep fixture exactly the past-due pending row is
counted, and a second sweep of the result is a no-op. -/
theorem overdue_sweep_spec_witness :
    (checkAndUpdateOverdueOccurrences envW dbSweep none).2
      = (dbSweep.occurrences.filter
          (fun o => o.status == TaskStatus.pending && decide (o.dueAt < envW.now))).length ∧
    checkAndUpdateOverdueOccurrences envW
        (checkAndUpdateOverdueOccurrences envW dbSweep none).1 none
      = ((checkAndUpdateOverdueOccurrences envW dbSweep none).1, 0) :=
  ⟨(overdue_sweep_spec envW dbSweep none (by decide)).2.2.1 rfl,
   (overdue_sweep_spec envW dbSweep none (by decide)).2.2.2.1⟩

/-- C1 (confirmed): from any status other than `done`, the complete endpoint
succeeds, sets the status to `done` and inserts exactly one TaskCompletion
row for the occurrence (the two effects sit in one transaction, modelled by
the all-or-nothing `Except` result); a second call — and any call on a `done`
occurrence — fails with the `ALREADY_COMPLETED` business-rule error, whose
HTTP status is 409 Conflict, and inserts nothing (the error path returns no
new state).  Hence two calls on a completion-free occurrence leave exactly
one completion row. -/
theorem complete_transition (env : Env) (db : DB) (occId userId : Nat)
    (payload : CompletePayload) (o : Occurrence) (hh : Option Nat)
    (hget : getTaskOccurrence db occId = some (o, hh))
    (hacc : checkHouseholdAccess env hh userId = true) :
    (o.status ≠ .done →
      ∃ db' c, completeOccurrence env db occId userId payload = .ok (db', c) ∧
        (∃ o', getTaskOccurrence db' occId = some (o', hh) ∧ o'.status = .done) ∧
        c.occurrenceId = occId ∧
        (completionsFor db' occId).length = (completionsFor db occId).length + 1 ∧
        completeOccurrence env db' occId userId payload =
          .error (.businessRuleViolation "ALREADY_COMPLETED"
            "Cette occurrence est déjà marquée comme complétée") ∧
        (AppError.businessRuleViolation "ALREADY_COMPLETED"
          "Cette occurrence est déjà marquée comme complétée").httpStatus = 409) ∧
    (o.status = .done →
      completeOccurrence env db occId userId payload =
        .error (.businessRuleViolation "ALREADY_COMPLETED"
          "Cette occurrence est déjà marquée comme complétée")) := by
  -- decompose the inner-join lookup
  have hfo : ∃ td, db.occurrences.find? (fun x => x.id == occId) = some o ∧
      db.taskDefs.find? (fun t => t.id == o.taskId) = some td ∧
      td.householdId = hh := by
    unfold getTaskOccurrence at hget
    cases h1 : db.occurrences.find? (fun x => x.id == occId) with
    | none =>
      simp only [h1] at hget
      exact Option.noConfusion hget
    | some o0 =>
      simp only [h1] at hget
      cases h2 : db.taskDefs.find? (fun t => t.id == o0.taskId) with
      | none =>
        simp only [h2] at hget
        exact Option.noConfusion hget
      | some td =>
        simp only [h2, Option.some.injEq, Prod.mk.injEq] at hget
        obtain ⟨ho, hhh⟩ := hget
        subst ho
        exact ⟨td, rfl, h2, hhh⟩
  obtain ⟨td, h1, h2, h3⟩ := hfo
  have hoid : (o.id == occId) = true := by
    have := List.find?_some h1; simpa using this
  constructor
  · intro hst
    have hstb : (o.status == TaskStatus.done) = false := by
      cases hs : o.status <;> simp_all
    -- the successful first call
    have hrun : completeOccurrence env db occId userId payload =
        .ok (completeTaskOccurrence env db occId userId
          payload.durationMinutes payload.comment payload.photoUrl) := by
      unfold completeOccurrence
      rw [hget]
      simp [hacc, hstb]
    set st := completeTaskOccurrence env db occId userId
      payload.durationMinutes payload.comment payload.photoUrl with hstdef
    -- the updated row
    have hfid : ∀ x : Occurrence,
        ((fun y : Occurrence =>
            if y.id == occId then { y with status := TaskStatus.done } else y) x).id
          = x.id := by
      intro x; by_cases h : (x.id == occId) = true <;> simp [h]
    have hfind' : st.1.occurrences.find? (fun x => x.id == occId)
        = some { o with status := TaskStatus.done } := by
      show (db.occurrences.map _).find? (fun x : Occurrence => x.id == occId) = _
      rw [find?_map_of_id_eq db.occurrences _ hfid occId, h1, Option.map_some',
        if_pos hoid]
    have hget' : getTaskOccurrence st.1 occId
        = some ({ o with status := TaskStatus.done }, hh) := by
      have h2' : st.1.taskDefs.find? (fun t => t.id == o.taskId) = some td := h2
      unfold getTaskOccurrence
      simp only [hfind', h2', h3]
    refine ⟨st.1, st.2, hrun, ⟨{ o with status := TaskStatus.done }, hget', rfl⟩, rfl, ?_, ?_, rfl⟩
    · show (completionsFor { db with
        occurrences := _, completions := db.completions ++ [_] } occId).length = _
      unfold completionsFor
      simp
    · unfold completeOccurrence
      rw [hget']
      simp [hacc]
  · intro hst
    have hstb : (o.status == TaskStatus.done) = true := by simp [hst]
    unfold completeOccurrence
    rw [hget]
    simp [hacc, hstb]

/-- Witness for C1: completing the pending occurrence 100 as member 7
succeeds exactly once. -/
theorem complete_transition_witness :
    ∃ db' c, completeOccurrence envW dbW 100 7 {} = .ok (db', c) ∧
      (∃ o', getTaskOccurrence db' 100 = some (o', some 1) ∧ o'.status = .done) ∧
      c.occurrenceId = 100 ∧
      (completionsFor db' 100).length = (completionsFor dbW 100).length + 1 ∧
      completeOccurrence envW db' 100 7 {} =
        .error (.businessRuleViolation "ALREADY_COMPLETED"
          "Cette occurrence est déjà marquée comme complétée") ∧
      (AppError.businessRuleViolation "ALREADY_COMPLETED"
        "Cette occurrence est déjà marquée comme complétée").httpStatus = 409 :=
  (complete_transition envW dbW 100 7 {} occPending (some 1) (by rfl) (by rfl)).1
    (by decide)

/-- C6, counterexample: scheduling reminders twice for the same assigned
occurrence inserts three rows each time — six rows for the same
(occurrence 105, recipient 7) pair with the same three computed instants —
because the INSERT has no existing-row check, contradicting the claimed
idempotence. -/
theorem schedule_reminders_duplicates :
    ((scheduleTaskReminders envW dbAssigned 105 none).bind (fun p =>
      (scheduleTaskReminders envW p.1 105 none).map (fun q =>
        (p.2.map (fun r => r.scheduledFor), q.2.map (fun r => r.scheduledFor),
         q.1.notifications.length,
         q.1.notifications.map (fun nr => (nr.occurrenceId, nr.memberId))))))
    = .ok ([19724 * 1440 + 1080, 19725 * 1440 + 540, 19725 * 1440 + 960],
           [19724 * 1440 + 1080, 19725 * 1440 + 540, 19725 * 1440 + 960],
           6,
           [(105, 7), (105, 7), (105, 7), (105, 7), (105, 7), (105, 7)]) := by
  rfl

/-- Helper: the insertion loop of `schedule_task_reminders` appends exactly
one notification row per future instant, unconditionally. -/
theorem scheduleLoop_spec (env : Env) (occId uid : Nat) (ch : String) :
    ∀ (ts : List (Nat × String)) (db : DB) (acc : List ScheduledReminder),
      ∃ newRows : List NotificationRow,
        (scheduleLoop env occId uid ch ts db acc).1.notifications
          = db.notifications ++ newRows ∧
        newRows.length = (ts.filter (fun tk => decide (env.now < tk.1))).length ∧
        (∀ nr ∈ newRows, nr.occurrenceId = occId ∧ nr.memberId = uid ∧ nr.channel = ch) ∧
        (scheduleLoop env occId uid ch ts db acc).2.map (fun r => r.scheduledFor)
          = acc.reverse.map (fun r => r.scheduledFor)
            ++ (ts.filter (fun tk => decide (env.now < tk.1))).map Prod.fst := by
  intro ts
  induction ts with
  | nil =>
    intro db acc
    exact ⟨[], by simp [scheduleLoop], by simp, by simp, by simp [scheduleLoop]⟩
  | cons hd tl ih =>
    intro db acc
    obtain ⟨t, kind⟩ := hd
    by_cases h : env.now < t
    · have hloop : scheduleLoop env occId uid ch ((t, kind) :: tl) db acc
          = scheduleLoop env occId uid ch tl
              { db with
                notifications := db.notifications ++
                  [{ id := db.nextId, occurrenceId := occId, memberId := uid,
                     channel := ch, createdAt := env.now }]
                nextId := db.nextId + 1 }
              ({ notificationId := db.nextId, scheduledFor := t, kind := kind,
                 channel := ch } :: acc) := by
        conv_lhs => unfold scheduleLoop
        rw [if_pos h]
      obtain ⟨nr, h1, h2, h3, h4⟩ := ih
        { db with
          notifications := db.notifications ++
            [{ id := db.nextId, occurrenceId := occId, memberId := uid,
               channel := ch, createdAt := env.now }]
          nextId := db.nextId + 1 }
        ({ notificationId := db.nextId, scheduledFor := t, kind := kind,
           channel := ch } :: acc)
      refine ⟨{ id := db.nextId, occurrenceId := occId, memberId := uid,
                channel := ch, createdAt := env.now } :: nr, ?_, ?_, ?_, ?_⟩
      · rw [hloop, h1]; simp
      · simp [h, h2]
      · intro x hx
        rcases List.mem_cons.mp hx with hx1 | hx1
        · subst hx1; exact ⟨rfl, rfl, rfl⟩
        · exact h3 x hx1
      · rw [hloop, h4]; simp [h]
    · have hloop : scheduleLoop env occId uid ch ((t, kind) :: tl) db acc
          = scheduleLoop env occId uid ch tl db acc := by
        conv_lhs => unfold scheduleLoop
        rw [if_neg h]
      obtain ⟨nr, h1, h2, h3, h4⟩ := ih db acc
      refine ⟨nr, ?_, ?_, h3, ?_⟩
      · rw [hloop, h1]
      · simp [h, h2]
      · rw [hloop, h4]; simp [h]

/-- C6 (amended): scheduling returns an empty list for an unassigned
occurrence; for an assigned one it inserts one notification row per future
computed instant unconditionally — no (occurrence, recipient, scheduled-for)
lookup exists, so pre-existing identical rows do not prevent new inserts and
repeated calls duplicate them. -/
theorem schedule_reminders_spec (env : Env) (db : DB) (occId : Nat)
    (userPreferences : Option Prefs) (o : Occurrence) (hh : Option Nat)
    (hget : getTaskOccurrence db occId = some (o, hh)) :
    (o.assignedTo = none →
      scheduleTaskReminders env db occId userPreferences = .ok (db, [])) ∧
    (∀ uid, o.assignedTo = some uid →
      ∃ db' rs newRows,
        scheduleTaskReminders env db occId userPreferences = .ok (db', rs) ∧
        db'.notifications = db.notifications ++ newRows ∧
        newRows.length
          = ((calculateReminderTimes o.dueAt (userPreferences.getD defaultPrefs) env.now).filter
              (fun tk => decide (env.now < tk.1))).length ∧
        (∀ nr ∈ newRows, nr.occurrenceId = occId ∧ nr.memberId = uid) ∧
        rs.map (fun r => r.scheduledFor)
          = ((calculateReminderTimes o.dueAt (userPreferences.getD defaultPrefs) env.now).filter
              (fun tk => decide (env.now < tk.1))).map Prod.fst) := by
  constructor
  · intro hna
    unfold scheduleTaskReminders
    simp only [hget, hna]
  · intro uid ha
    unfold scheduleTaskReminders
    simp only [hget, ha]
    obtain ⟨nr, h1, h2, h3, h4⟩ := scheduleLoop_spec env occId uid
      (userPreferences.getD defaultPrefs).preferredChannel
      (calculateReminderTimes o.dueAt (userPreferences.getD defaultPrefs) env.now) db []
    refine ⟨_, _, nr, rfl, h1, h2, fun x hx => ⟨(h3 x hx).1, (h3 x hx).2.1⟩, ?_⟩
    simpa using h4

/-- Witness for C6's amended theorem: the assigned fixture occurrence gets
its three future instants inserted as three rows in one call. -/
theorem schedule_reminders_spec_witness :
    ∃ db' rs newRows,
      scheduleTaskReminders envW dbAssigned 105 none = .ok (db', rs) ∧
      db'.notifications = dbAssigned.notifications ++ newRows ∧
      newRows.length
        = ((calculateReminderTimes occAssigned.dueAt ((none : Option Prefs).getD defaultPrefs) envW.now).filter
            (fun tk => decide (envW.now < tk.1))).length ∧
      (∀ nr ∈ newRows, nr.occurrenceId = 105 ∧ nr.memberId = 7) ∧
      rs.map (fun r => r.scheduledFor)
        = ((calculateReminderTimes occAssigned.dueAt ((none : Option Prefs).getD defaultPrefs) envW.now).filter
            (fun tk => decide (envW.now < tk.1))).map Prod.fst :=
  (schedule_reminders_spec envW dbAssigned 105 none occAssigned (some 1) (by rfl)).2 7 rfl

/-- C7, counterexample: with a database error injected on definition 10's
insert, the household fan-out aborts with that error and returns nothing —
even though definition 11 alone would generate three occurrences — because
the loop in `generate_occurrences_for_household` has no exception handling
(and logs nothing). -/
theorem household_generation_abort :
    generateOccurrencesForHousehold envFail dbTwoDefs 1 2
      = .error (.databaseError "insert task_occurrence") ∧
    (generateOccurrencesForDefinition envFail dbTwoDefs 11 envFail.today
        (envFail.today + 2)).map (fun p => p.2.length) = .ok 3 :=
  ⟨by rfl, by rfl⟩

/-- Helper: with no injected driver failure and a resolvable definition,
`create_task_occurrence` succeeds and leaves the definition table alone. -/
theorem createTaskOccurrence_ok (env : Env) (db : DB)
    (taskId sched dueAt : Nat) (assigned : Option Nat)
    (hf : env.failingInserts = []) (td : TaskDef)
    (hdef : db.taskDefs.find? (fun t => t.id == taskId) = some td) :
    ∃ p, createTaskOccurrence env db taskId sched dueAt assigned = .ok p ∧
      p.1.taskDefs = db.taskDefs := by
  unfold createTaskOccurrence
  cases hdup : db.occurrences.find?
      (fun o => o.taskId == taskId && o.scheduledDate == sched) with
  | some ex => exact ⟨(db, some ex), rfl, rfl⟩
  | none =>
    rw [hf, hdef]
    exact ⟨_, rfl, rfl⟩

/-- Helper: the per-date creation loop of the generator never errors when no
driver failure is injected. -/
theorem genDefLoop_ok (env : Env) (taskDefId maxOcc : Nat)
    (hf : env.failingInserts = []) (td : TaskDef) :
    ∀ (ts : List Nat) (db : DB) (acc : List Occurrence),
      db.taskDefs.find? (fun t => t.id == taskDefId) = some td →
      ∃ p, genDefLoop env taskDefId maxOcc ts db acc = .ok p ∧
        p.1.taskDefs = db.taskDefs := by
  intro ts
  induction ts with
  | nil => intro db acc _; exact ⟨(db, acc.reverse), rfl, rfl⟩
  | cons dt rest ih =>
    intro db acc hdef
    unfold genDefLoop
    by_cases hlen : acc.length ≥ maxOcc
    · rw [if_pos hlen]; exact ⟨(db, acc.reverse), rfl, rfl⟩
    · rw [if_neg hlen]
      obtain ⟨p, hp, hpt⟩ := createTaskOccurrence_ok env db taskDefId (dt / 1440)
        (dt / 1440 * 1440 + 1439) none hf td hdef
      show ∃ q, (match createTaskOccurrence env db taskDefId (dt / 1440)
          (dt / 1440 * 1440 + 1439) none with
        | Except.error e => Except.error e
        | Except.ok (db', some occ) => genDefLoop env taskDefId maxOcc rest db' (occ :: acc)
        | Except.ok (db', none) => genDefLoop env taskDefId maxOcc rest db' acc)
          = .ok q ∧ q.1.taskDefs = db.taskDefs
      rw [hp]
      cases p with
      | mk db1 oOpt =>
        have hpt' : db1.taskDefs = db.taskDefs := hpt
        cases oOpt with
        | some occ =>
          obtain ⟨q, hq, hqt⟩ := ih db1 (occ :: acc) (by rw [hpt']; exact hdef)
          exact ⟨q, hq, hqt.trans hpt'⟩
        | none =>
          obtain ⟨q, hq, hqt⟩ := ih db1 acc (by rw [hpt']; exact hdef)
          exact ⟨q, hq, hqt.trans hpt'⟩

/-- Helper: per-definition generation never errors when no driver failure is
injected (a missing definition or unparseable rule yields an empty list). -/
theorem generateForDefinition_ok (env : Env) (db : DB)
    (taskDefId startDay endDay maxOcc : Nat) (hf : env.failingInserts = []) :
    ∃ p, generateOccurrencesForDefinition env db taskDefId startDay endDay maxOcc
        = .ok p ∧ p.1.taskDefs = db.taskDefs := by
  unfold generateOccurrencesForDefinition
  cases hdef : db.taskDefs.find? (fun t => t.id == taskDefId) with
  | none => exact ⟨(db, []), rfl, rfl⟩
  | some td =>
    show ∃ p, (match td.recurrenceRule.bind rrulestrParse with
      | none => Except.ok (db, ([] : List Occurrence))
      | some r => genDefLoop env taskDefId maxOcc
          (rruleBetween r startDay (endDay * 1440 + 1439)) db [])
        = .ok p ∧ p.1.taskDefs = db.taskDefs
    cases hr : td.recurrenceRule.bind rrulestrParse with
    | none => exact ⟨(db, []), rfl, rfl⟩
    | some r =>
      exact genDefLoop_ok env taskDefId maxOcc hf td
        (rruleBetween r startDay (endDay * 1440 + 1439)) db [] hdef

/-- C7 (amended): the fan-out isolates only rule-level failures — a
definition whose rule is missing or unparseable contributes an empty list and
generation proceeds — so with no database error the household generation
always returns a result; but (per the counterexample) a database error on one
definition aborts the whole fan-out, with nothing logged or aggregated. -/
theorem household_generation_no_failure_ok (env : Env) (db : DB)
    (householdId daysAhead : Nat) (hf : env.failingInserts = []) :
    ∃ p, generateOccurrencesForHousehold env db householdId daysAhead = .ok p := by
  unfold generateOccurrencesForHousehold
  suffices h : ∀ (defs : List TaskDef) (st : DB × List Occurrence),
      ∃ p, defs.foldlM (fun st td => do
          let (db', occs) ← generateOccurrencesForDefinition env st.1 td.id
            env.today (env.today + daysAhead)
          pure (db', st.2 ++ occs)) st = .ok p by
    exact h _ _
  intro defs
  induction defs with
  | nil => intro st; exact ⟨st, rfl⟩
  | cons td rest ih =>
    intro st
    simp only [List.foldlM_cons]
    obtain ⟨p, hp, -⟩ := generateForDefinition_ok env st.1 td.id
      env.today (env.today + daysAhead) 100 hf
    rw [hp]
    cases p with
    | mk db1 occs => exact ih (db1, st.2 ++ occs)

/-- Witness for C7's amended theorem: with no injected failure the two-
definition household generates successfully. -/
theorem household_generation_no_failure_ok_witness :
    ∃ p, generateOccurrencesForHousehold envW dbTwoDefs 1 2 = .ok p :=
  household_generation_no_failure_ok envW dbTwoDefs 1 2 rfl

end CleaningTracker
